import Mathlib

/-!
A shallow embedding of the AUFE connection engine
(`src/provider/aufe/client.py` of LoveACE) and proofs about it.

Conventions of the embedding:
* timestamps are natural numbers, threaded explicitly where the Python code
  calls `time.time()`;
* network I/O is modelled by passing the outcome of each HTTP exchange as
  explicit data (a `NetResult`); an outcome `NetResult.err` stands for a
  raised `httpx.RequestError`;
* fallible Python code that may `raise` is embedded as `Except`;
* the fields of a response that the Python code extracts by regular
  expression or HTML parsing are given already-extracted, as `Option`s
  (`none` = the pattern or form field was absent from the body).
-/

namespace AUFE

/-- The exception taxonomy of `client.py`
(`AUFEConnectionError`, `AUFELoginError`, `AUFETimeoutError`, `AUFEParseError`). -/
inductive AUFEErr where
  | connectionError
  | loginError
  | timeoutError
  | parseError
deriving DecidableEq, Repr

/-- Outcome of one HTTP exchange: `err` models a raised `httpx.RequestError`,
`ok` a returned response (abstracted to the data the caller extracts). -/
inductive NetResult (α : Type) where
  | err
  | ok (a : α)
deriving DecidableEq, Repr

/-! ## `ConnectionHealth` (client.py lines 214-238) -/

/-- `ConnectionHealth`: per-connection mutable health status.
`last_check` is a timestamp (`time.time()` in the source), passed in
explicitly here. -/
structure ConnectionHealth where
  is_healthy : Bool
  last_error : Option AUFEErr
  error_count : Nat
  last_check : Nat
deriving DecidableEq, Repr

/-- `ConnectionHealth.__init__`: starts healthy, no error, zero count. -/
def ConnectionHealth.init (now : Nat) : ConnectionHealth :=
  { is_healthy := true, last_error := none, error_count := 0, last_check := now }

/-- `ConnectionHealth.mark_error`. -/
def ConnectionHealth.mark_error (h : ConnectionHealth) (e : AUFEErr) (now : Nat) :
    ConnectionHealth :=
  { is_healthy := false, last_error := some e,
    error_count := h.error_count + 1, last_check := now }

/-- `ConnectionHealth.mark_healthy`. -/
def ConnectionHealth.mark_healthy (_h : ConnectionHealth) (now : Nat) : ConnectionHealth :=
  { is_healthy := true, last_error := none, error_count := 0, last_check := now }

/-- `ConnectionHealth.should_reconnect`:
`not self.is_healthy or self.error_count >= 3`. -/
def ConnectionHealth.should_reconnect (h : ConnectionHealth) : Bool :=
  !h.is_healthy || h.error_count ≥ 3

/-! ## Retry executor (`retry_async` / `_calculate_delay`, client.py lines 118-211) -/

/-- `RetryStrategy` enum. -/
inductive RetryStrategy where
  | immediate
  | fixed_delay
  | exponential_backoff
  | linear_backoff
deriving DecidableEq, Repr

/-- `RetryConfig`, generic over the exception type `ε`.
`retry_on` embeds the membership test `isinstance(e, config.retry_on_exceptions)`.
Delays are rationals (the source uses floats only for sleeping, never for
control decisions other than `delay > 0`). -/
structure RetryConfig (ε : Type) where
  max_attempts : Nat
  strategy : RetryStrategy
  base_delay : ℚ
  max_delay : ℚ
  exponential_base : ℚ
  jitter : Bool
  retry_on : ε → Bool

/-- `_calculate_delay`. `jitterFactor` stands for the sampled value
`0.5 + random.random() * 0.5`. -/
def calculate_delay {ε : Type} (attempt : Nat) (cfg : RetryConfig ε)
    (jitterFactor : ℚ) : ℚ :=
  let delay : ℚ :=
    match cfg.strategy with
    | .immediate => 0
    | .fixed_delay => cfg.base_delay
    | .exponential_backoff =>
        min (cfg.base_delay * cfg.exponential_base ^ attempt) cfg.max_delay
    | .linear_backoff => min (cfg.base_delay * (attempt + 1)) cfg.max_delay
  if cfg.jitter ∧ delay > 0 then delay * jitterFactor else delay

/-- Result of running the retry wrapper: the value returned or exception
raised, the number of attempts that were started, and the sleeps performed.
`result = .ok none` is the implicit `None` return when `max_attempts = 0`. -/
structure RetryOutcome (ε α : Type) where
  result : Except ε (Option α)
  attempts_made : Nat
  sleeps : List ℚ
deriving Repr

/-- The loop body of `retry_async`'s `wrapper`. `op i` is the outcome of the
`i`-th call of the wrapped coroutine; `fuel` counts the remaining iterations
of `range(config.max_attempts)`, so `fuel = 1` means
`attempt == config.max_attempts - 1`. -/
def retryGo {ε α : Type} (cfg : RetryConfig ε) (op : Nat → Except ε α)
    (jf : Nat → ℚ) : Nat → Nat → Nat → List ℚ → Option ε → RetryOutcome ε α
  | _, 0, attempts, sleeps, last =>
      match last with
      | some e => ⟨.error e, attempts, sleeps⟩
      | none => ⟨.ok none, attempts, sleeps⟩
  | i, fuel + 1, attempts, sleeps, _last =>
      match op i with
      | .ok a => ⟨.ok (some a), attempts + 1, sleeps⟩
      | .error e =>
          if cfg.retry_on e then
            if fuel = 0 then
              ⟨.error e, attempts + 1, sleeps⟩
            else
              retryGo cfg op jf (i + 1) fuel (attempts + 1)
                (sleeps ++ [calculate_delay i cfg (jf i)]) (some e)
          else
            ⟨.error e, attempts + 1, sleeps⟩

/-- `retry_async(config)(func)` applied to one call: run the attempt loop
from attempt `0` with `config.max_attempts` iterations remaining. -/
def retryRun {ε α : Type} (cfg : RetryConfig ε) (op : Nat → Except ε α)
    (jf : Nat → ℚ) : RetryOutcome ε α :=
  retryGo cfg op jf 0 cfg.max_attempts 0 [] none

/-! ## Connection state (`AUFEConnection.__init__`, client.py lines 247-295)

Only the fields that the verified operations read or write are carried;
the transport session, student id and background-task handles have no
observable state beyond what is modelled here. -/

/-- The mutable state of an `AUFEConnection`:
`twf_id`, `_logged_in` (the VPN-authenticated flag), `_uaap_logged_in`
(the SSO-authenticated flag), `uaap_cookies`, `_health`, `last_activity`,
`_is_closed`. -/
structure AUFEConnState where
  twf_id : Option String
  logged_in : Bool
  uaap_logged_in : Bool
  uaap_cookies : Option (List (String × String))
  health : ConnectionHealth
  last_activity : Nat
  is_closed : Bool
deriving DecidableEq, Repr

/-- State of a freshly constructed connection. -/
def AUFEConnState.init (now : Nat) : AUFEConnState :=
  { twf_id := none, logged_in := false, uaap_logged_in := false,
    uaap_cookies := none, health := ConnectionHealth.init now,
    last_activity := now, is_closed := false }

/-- Does `pat` occur at the start of `l`? (helper for the substring test). -/
def charsStartWith : List Char → List Char → Bool
  | [], _ => true
  | _ :: _, [] => false
  | p :: ps, c :: cs => p = c && charsStartWith ps cs

/-- Does `pat` occur anywhere in `l`? -/
def charsHaveSub (pat : List Char) : List Char → Bool
  | [] => charsStartWith pat []
  | c :: cs => charsStartWith pat (c :: cs) || charsHaveSub pat cs

/-- The Python test `pat in s` on strings. -/
def strHasSub (pat s : String) : Bool := charsHaveSub pat.data s.data

/-- The literal success marker checked by `login`. -/
def resultMarker : String := "<Result>1</Result>"

instance {ε α : Type} [DecidableEq ε] [DecidableEq α] :
    DecidableEq (Except ε α) := fun a b =>
  match a, b with
  | .ok x, .ok y => decidable_of_iff (x = y) (by simp)
  | .ok _, .error _ => isFalse fun h => Except.noConfusion h
  | .error _, .ok _ => isFalse fun h => Except.noConfusion h
  | .error e, .error f => decidable_of_iff (e = f) (by simp)

/-! ## VPN login (`AUFEConnection.login`, client.py lines 375-492) -/

/-- The fields `login` extracts by regular expression from the body of the
initial `GET /por/login_auth.csp` response (`none` = pattern absent). -/
structure LoginAuthFields where
  twfid : Option String
  rsa_key : Option String
  rsa_exp : Option String
  csrf : Option String
deriving DecidableEq, Repr

/-- The I/O environment of one `login` attempt: the outcome of the initial
GET, whether building the RSA key and encrypting raised no exception
(`int(rsa_key, 16)` can raise on a malformed modulus), and the outcome of
the credential POST (abstracted to its body text). -/
structure LoginEnv where
  auth_resp : NetResult LoginAuthFields
  encrypt_ok : Bool
  post_resp : NetResult String
deriving Repr

/-- One (undecorated) `login` attempt. Returns the value returned
(`.ok b`) or the exception raised (`.error k`), and the post-state.
Faithful points: `twf_id` is assigned as soon as the pattern matches, even
if the attempt later fails; the early `return False` paths do not touch
`_logged_in`; the exception paths set `_logged_in = False` and mark the
health record before re-raising as a typed error. -/
def loginStep (s : AUFEConnState) (env : LoginEnv) (now : Nat) :
    Except AUFEErr Bool × AUFEConnState :=
  match env.auth_resp with
  | .err =>
      (.error .connectionError,
        { s with logged_in := false,
                 health := s.health.mark_error .connectionError now })
  | .ok fields =>
      match fields.twfid with
      | none => (.ok false, s)
      | some t =>
          let s1 := { s with twf_id := some t }
          match fields.rsa_key with
          | none => (.ok false, s1)
          | some _ =>
              if !env.encrypt_ok then
                (.error .loginError,
                  { s1 with logged_in := false,
                            health := s1.health.mark_error .loginError now })
              else
                match env.post_resp with
                | .err =>
                    (.error .connectionError,
                      { s1 with logged_in := false,
                                health := s1.health.mark_error .connectionError now })
                | .ok content =>
                    if strHasSub resultMarker content then
                      (.ok true, { s1 with logged_in := true })
                    else
                      (.ok false, { s1 with logged_in := false })

/-- `AUFEConnection.login_status`:
`return self._logged_in and self._health.is_healthy`. -/
def login_status (s : AUFEConnState) : Bool :=
  s.logged_in && s.health.is_healthy

/-! ## SSO login (`AUFEConnection.uaap_login`, client.py lines 563-690) -/

/-- What `uaap_login` extracts from the login-page GET: its status code and
the `lt` and `execution` hidden-input values (`none` = input absent). -/
structure UaapPageFields where
  status_code : Nat
  lt : Option String
  execution : Option String
deriving DecidableEq, Repr

/-- What `uaap_login` reads off the login POST response: status code,
`Location` header (`none` = header absent), and response cookies. -/
structure UaapPostFields where
  status_code : Nat
  location : Option String
  cookies : List (String × String)
deriving DecidableEq, Repr

/-- The I/O environment of one `uaap_login` attempt. -/
structure UaapEnv where
  page_resp : NetResult UaapPageFields
  post_resp : NetResult UaapPostFields
deriving Repr

/-- One (undecorated) `uaap_login` attempt. Faithful points: success
requires `status_code == 302` exactly and a non-empty
`headers.get("Location", "")`; every failure path — early `return False`
or exception — leaves `_uaap_logged_in` and `_logged_in` untouched
(the `except` handlers only mark the health record and re-raise). -/
def uaapLoginStep (s : AUFEConnState) (env : UaapEnv) (now : Nat) :
    Except AUFEErr Bool × AUFEConnState :=
  match env.page_resp with
  | .err =>
      (.error .connectionError,
        { s with health := s.health.mark_error .connectionError now })
  | .ok page =>
      if page.status_code ≠ 200 then (.ok false, s)
      else
        match page.lt with
        | none => (.ok false, s)
        | some _ =>
            match page.execution with
            | none => (.ok false, s)
            | some _ =>
                match env.post_resp with
                | .err =>
                    (.error .connectionError,
                      { s with health := s.health.mark_error .connectionError now })
                | .ok post =>
                    if post.status_code = 302 then
                      if post.location.getD "" ≠ "" then
                        (.ok true,
                          { s with uaap_cookies := some post.cookies,
                                   uaap_logged_in := true })
                      else (.ok false, s)
                    else (.ok false, s)

/-- `AUFEConnection.uaap_login_status`:
`return self._uaap_logged_in and self._health.is_healthy`. -/
def uaap_login_status (s : AUFEConnState) : Bool :=
  s.uaap_logged_in && s.health.is_healthy

/-! ## Reconnect (`AUFEConnection._reconnect`, client.py lines 968-991) -/

/-- `_reconnect`. `close_ok` records whether `session.aclose()` raised; if
it did, the typed connection error propagates before any state is reset. -/
def reconnectStep (s : AUFEConnState) (close_ok : Bool) (now : Nat) :
    Except AUFEErr Unit × AUFEConnState :=
  if close_ok then
    (.ok (),
      { s with logged_in := false, uaap_logged_in := false,
               twf_id := none, uaap_cookies := none,
               health := s.health.mark_healthy now })
  else
    (.error .connectionError, s)

/-- `AUFEConnection._health_check`: probes only when VPN-logged-in; a 200
marks healthy, any other status or a raised exception marks an error. -/
def healthCheckStep (s : AUFEConnState) (probe : NetResult Nat) (now : Nat) :
    AUFEConnState :=
  if s.logged_in then
    match probe with
    | .err => { s with health := s.health.mark_error .connectionError now }
    | .ok code =>
        if code = 200 then { s with health := s.health.mark_healthy now }
        else { s with health := s.health.mark_error .connectionError now }
  else s

/-- The states of one connection reachable through the operations of
`client.py`: construction, VPN login attempts, SSO login attempts,
reconnects, monitor health checks, direct health marks (as performed by the
typed-request executor), close, and activity touches. -/
inductive Reachable : AUFEConnState → Prop where
  | init (now : Nat) : Reachable (AUFEConnState.init now)
  | login {s : AUFEConnState} (env : LoginEnv) (now : Nat) :
      Reachable s → Reachable (loginStep s env now).2
  | uaap {s : AUFEConnState} (env : UaapEnv) (now : Nat) :
      Reachable s → Reachable (uaapLoginStep s env now).2
  | reconnect {s : AUFEConnState} (close_ok : Bool) (now : Nat) :
      Reachable s → Reachable (reconnectStep s close_ok now).2
  | healthCheck {s : AUFEConnState} (probe : NetResult Nat) (now : Nat) :
      Reachable s → Reachable (healthCheckStep s probe now)
  | healthSet {s : AUFEConnState} (h : ConnectionHealth) :
      Reachable s → Reachable { s with health := h }
  | close {s : AUFEConnState} :
      Reachable s → Reachable { s with is_closed := true }
  | touch {s : AUFEConnState} (now : Nat) :
      Reachable s → Reachable { s with last_activity := now }

/-- Reachability restricted to disciplined traces: a VPN login is attempted
only while not SSO-authenticated, and an SSO login is attempted only while
VPN-authenticated. (The code itself does not enforce either restriction.) -/
inductive ReachableDisciplined : AUFEConnState → Prop where
  | init (now : Nat) : ReachableDisciplined (AUFEConnState.init now)
  | login {s : AUFEConnState} (env : LoginEnv) (now : Nat) :
      ReachableDisciplined s → s.uaap_logged_in = false →
      ReachableDisciplined (loginStep s env now).2
  | uaap {s : AUFEConnState} (env : UaapEnv) (now : Nat) :
      ReachableDisciplined s → s.logged_in = true →
      ReachableDisciplined (uaapLoginStep s env now).2
  | reconnect {s : AUFEConnState} (close_ok : Bool) (now : Nat) :
      ReachableDisciplined s → ReachableDisciplined (reconnectStep s close_ok now).2
  | healthCheck {s : AUFEConnState} (probe : NetResult Nat) (now : Nat) :
      ReachableDisciplined s → ReachableDisciplined (healthCheckStep s probe now)
  | healthSet {s : AUFEConnState} (h : ConnectionHealth) :
      ReachableDisciplined s → ReachableDisciplined { s with health := h }
  | close {s : AUFEConnState} :
      ReachableDisciplined s → ReachableDisciplined { s with is_closed := true }
  | touch {s : AUFEConnState} (now : Nat) :
      ReachableDisciplined s → ReachableDisciplined { s with last_activity := now }

/-- A successful SSO login attempt on a fresh, never-VPN-authenticated
connection (used to exhibit a violation of the claimed invariant). -/
def uaapEnvFreshSuccess : UaapEnv :=
  { page_resp := .ok { status_code := 200, lt := some "LT-1-abc",
                       execution := some "e1s1" },
    post_resp := .ok { status_code := 302,
                       location := some "http://uaap.aufe.edu.cn/cas/ticket",
                       cookies := [("CASTGC", "TGT-1")] } }

/-- A VPN login attempt that succeeds: token and modulus present, POST body
carries the success marker. -/
def loginEnvSuccess : LoginEnv :=
  { auth_resp := .ok { twfid := some "ABC123", rsa_key := some "C0FFEE12",
                       rsa_exp := some "65537", csrf := none },
    encrypt_ok := true,
    post_resp := .ok "<Message><Result>1</Result></Message>" }

/-- A VPN login attempt rejected by the portal: handshake fields present but
the POST body lacks `<Result>1</Result>`. -/
def loginEnvRejected : LoginEnv :=
  { auth_resp := .ok { twfid := some "ABC123", rsa_key := some "C0FFEE12",
                       rsa_exp := some "65537", csrf := none },
    encrypt_ok := true,
    post_resp := .ok "<Message><Result>0</Result><Error>bad auth</Error></Message>" }

/-- An SSO login attempt rejected with an inline error page (HTTP 200, no
redirect). -/
def uaapEnvRejected : UaapEnv :=
  { page_resp := .ok { status_code := 200, lt := some "LT-2", execution := some "e2s1" },
    post_resp := .ok { status_code := 200, location := none, cookies := [] } }

/-- An SSO login attempt whose login page is missing the `execution` hidden
input. -/
def uaapEnvNoExecution : UaapEnv :=
  { page_resp := .ok { status_code := 200, lt := some "LT-2", execution := none },
    post_resp := .ok { status_code := 302, location := some "http://x/", cookies := [] } }

/-- An SSO login attempt answered with a 301 redirect (not 302) carrying a
`Location` header. -/
def uaapEnv301 : UaapEnv :=
  { page_resp := .ok { status_code := 200, lt := some "LT-3", execution := some "e3s1" },
    post_resp := .ok { status_code := 301,
                       location := some "http://uaap.aufe.edu.cn/home",
                       cookies := [("SESS", "s1")] } }

/-- A connection that has completed both login handshakes and is healthy. -/
def fullyAuthState : AUFEConnState :=
  { twf_id := some "ABC123", logged_in := true, uaap_logged_in := true,
    uaap_cookies := some [("CASTGC", "TGT-1")],
    health := ConnectionHealth.init 0, last_activity := 0, is_closed := false }

/-! ## Response cache (client.py lines 348-373)

`_request_cache` maps a cache key to `(response, timestamp)`. It lives on
the connection object in Python; here it is threaded alongside the
connection state, parameterised by the cached value type `α`. -/

/-- `self._cache_ttl = 300`. -/
def cacheTTL : Nat := 300

/-- `AUFEConnection._get_cached_response`: a fresh entry is returned, an
expired entry is deleted (and `none` returned). Returns the value found and
the cache after the lookup. -/
def getCachedResponse {α : Type} :
    List (String × α × Nat) → String → Nat → Option α × List (String × α × Nat)
  | [], _, _ => (none, [])
  | (k, v, ts) :: rest, key, now =>
      if k = key then
        if now - ts < cacheTTL then (some v, (k, v, ts) :: rest)
        else (none, rest)
      else
        let (r, rest') := getCachedResponse rest key now
        (r, (k, v, ts) :: rest')

/-- `AUFEConnection._clear_cache`: drop every entry with
`now - timestamp > ttl`. -/
def clearCache {α : Type} (cache : List (String × α × Nat)) (now : Nat) :
    List (String × α × Nat) :=
  cache.filter fun e => decide (now - e.2.2 ≤ cacheTTL)

/-- Dictionary assignment `self._request_cache[url] = (response, now)`:
replace the entry if the key is present, else append. -/
def cacheAssign {α : Type} :
    List (String × α × Nat) → String → α → Nat → List (String × α × Nat)
  | [], key, v, now => [(key, v, now)]
  | (k, v', ts) :: rest, key, v, now =>
      if k = key then (key, v, now) :: rest
      else (k, v', ts) :: cacheAssign rest key v now

/-- `AUFEConnection._cache_response`: store, then sweep expired entries on
every 10th insert (`len % 10 == 0`). -/
def cacheResponse {α : Type} (cache : List (String × α × Nat)) (key : String)
    (v : α) (now : Nat) : List (String × α × Nat) :=
  let cache' := cacheAssign cache key v now
  if cache'.length % 10 = 0 then clearCache cache' now else cache'

/-! ## Typed request executor (`model_request` and helpers,
client.py lines 809-966) -/

/-- Outcome of one HTTP attempt inside the typed-request executor:
`requestError` = `httpx.RequestError` raised by the transport;
`response status parsed` = a response with that status code, `parsed` being
`some m` when `response.json()` + `model.parse_obj` succeed and `none` when
decoding raises; `fatal` = any other exception raised by the call. -/
inductive ReqOutcome (α : Type) where
  | requestError
  | response (status : Nat) (parsed : Option α)
  | fatal
deriving DecidableEq, Repr

/-- Errors propagated out of the request path: a typed error of the
`AUFEError` taxonomy, or a non-AUFE exception re-raised unchanged. -/
inductive ReqError where
  | aufe (k : AUFEErr)
  | other
deriving DecidableEq, Repr

/-- How the retry loop of `_send_model_request_with_retry` exits: early
success, an immediately re-raised non-retryable exception, or exhaustion of
the attempt budget (carrying `last_exception`). -/
inductive LoopExit (α : Type) where
  | success (m : α)
  | raised
  | exhausted (last : Option ReqError)
deriving DecidableEq, Repr

/-- The `for attempt in range(config.max_attempts)` loop of
`_send_model_request_with_retry`. `attempts i` is the outcome of the `i`-th
HTTP call; `fuel` counts remaining iterations (`fuel = 1` on the last
attempt). Each failed attempt marks the health record; sleeps have no
state effect and are not recorded here. -/
def sendLoop {α : Type} (attempts : Nat → ReqOutcome α) (now : Nat) :
    Nat → Nat → Option ReqError → AUFEConnState → LoopExit α × AUFEConnState
  | _, 0, last, s => (.exhausted last, s)
  | i, fuel + 1, _last, s =>
      match attempts i with
      | .response status parsed =>
          if status = 200 then
            match parsed with
            | some m => (.success m, { s with health := s.health.mark_healthy now })
            | none =>
                let s' := { s with health := s.health.mark_error .parseError now }
                if fuel = 0 then (.exhausted (some (.aufe .parseError)), s')
                else sendLoop attempts now (i + 1) fuel (some (.aufe .parseError)) s'
          else
            let s' := { s with health := s.health.mark_error .connectionError now }
            if fuel = 0 then (.exhausted (some (.aufe .connectionError)), s')
            else sendLoop attempts now (i + 1) fuel (some (.aufe .connectionError)) s'
      | .requestError =>
          let s' := { s with health := s.health.mark_error .connectionError now }
          if fuel = 0 then (.exhausted (some (.aufe .connectionError)), s')
          else sendLoop attempts now (i + 1) fuel (some (.aufe .connectionError)) s'
      | .fatal => (.raised, s)

/-- `AUFEConnection._send_model_request_final_attempt`: one more HTTP call
after the reconnect; any failure (transport error, non-200 status, decode
failure, or other exception) is wrapped — by the blanket `except` — into a
typed `AUFEConnectionError` after marking the health record (a non-200
status marks it twice: once before the inner `raise`, once in the
handler). -/
def finalAttempt {α : Type} (outcome : ReqOutcome α) (now : Nat)
    (s : AUFEConnState) : Except ReqError (Option α) × AUFEConnState :=
  match outcome with
  | .response status parsed =>
      if status = 200 then
        match parsed with
        | some m => (.ok (some m), { s with health := s.health.mark_healthy now })
        | none =>
            (.error (.aufe .connectionError),
              { s with health := s.health.mark_error .connectionError now })
      else
        let s' := { s with health := s.health.mark_error .connectionError now }
        (.error (.aufe .connectionError),
          { s' with health := s'.health.mark_error .connectionError now })
  | .requestError =>
      (.error (.aufe .connectionError),
        { s with health := s.health.mark_error .connectionError now })
  | .fatal =>
      (.error (.aufe .connectionError),
        { s with health := s.health.mark_error .connectionError now })

/-- The I/O environment of one `model_request` call. `reconnect_ok` is
whether `session.aclose()` inside `_reconnect` raised (used for both the
entry reconnect and the post-exhaustion reconnect). -/
structure ModelEnv (α : Type) where
  attempts : Nat → ReqOutcome α
  reconnect_ok : Bool
  final : ReqOutcome α

/-- `AUFEConnection._send_model_request_with_retry`: run the attempt loop;
on exhaustion, if the health record says to reconnect, reconnect and make
one final attempt (a failed reconnect propagates its own typed error);
otherwise re-raise `last_exception`, or return `None` if there is none. -/
def sendWithRetry {α : Type} (env : ModelEnv α) (max_attempts : Nat) (now : Nat)
    (s : AUFEConnState) : Except ReqError (Option α) × AUFEConnState :=
  match sendLoop env.attempts now 0 max_attempts none s with
  | (.success m, s') => (.ok (some m), s')
  | (.raised, s') => (.error .other, s')
  | (.exhausted last, s') =>
      if s'.health.should_reconnect then
        match reconnectStep s' env.reconnect_ok now with
        | (.ok _, s'') => finalAttempt env.final now s''
        | (.error e, s'') => (.error (.aufe e), s'')
      else
        match last with
        | some e => (.error e, s')
        | none => (.ok none, s')

/-- `AUFEConnection.model_request`: consult the cache; reconnect up front if
forced or unhealthy (this reconnect is *outside* the `try`, so its failure
propagates); then run the retry layer inside `try ... except Exception:
return None` — any error it raises is logged and swallowed, the caller
receives `None`; a non-`None` success is cached when caching is enabled.
Returns (result, connection state, cache). -/
def modelRequest {α : Type} (env : ModelEnv α) (max_attempts : Nat)
    (use_cache force_reconnect : Bool) (cache_key : String) (now : Nat)
    (s : AUFEConnState) (cache : List (String × α × Nat)) :
    Except ReqError (Option α) × AUFEConnState × List (String × α × Nat) :=
  match (if use_cache then getCachedResponse cache cache_key now
         else (none, cache)) with
  | (some v, cache') => (.ok (some v), s, cache')
  | (none, cache') =>
      match (if force_reconnect || s.health.should_reconnect
             then reconnectStep s env.reconnect_ok now
             else (.ok (), s)) with
      | (.error e, s') => (.error (.aufe e), s', cache')
      | (.ok _, s') =>
          match sendWithRetry env max_attempts now s' with
          | (.ok result, s'') =>
              (.ok result, s'',
                match result with
                | some v =>
                    if use_cache then cacheResponse cache' cache_key v now
                    else cache'
                | none => cache')
          | (.error _, s'') => (.ok none, s'', cache')

/-- An attempt outcome the retry loop treats as a retryable failure:
a transport error, a non-200 status, or a 200 whose body fails to decode. -/
def retryableFailure {α : Type} : ReqOutcome α → Prop
  | .requestError => True
  | .response status parsed => status ≠ 200 ∨ parsed = none
  | .fatal => False

instance {α : Type} (o : ReqOutcome α) : Decidable (retryableFailure o) := by
  cases o with
  | requestError => exact isTrue trivial
  | response status parsed =>
      cases parsed with
      | none => exact isTrue (Or.inr rfl)
      | some m => exact decidable_of_iff (status ≠ 200) (by simp [retryableFailure])
  | fatal => exact isFalse fun h => h

/-- An attempt outcome that is not a decoded 200 success. -/
def notSuccess {α : Type} : ReqOutcome α → Prop
  | .response 200 (some _) => False
  | _ => True

instance {α : Type} (o : ReqOutcome α) : Decidable (notSuccess o) := by
  unfold notSuccess
  repeat' split
  · exact isFalse fun h => h
  · exact isTrue trivial

/-- A `model_request` run in which every attempt fails with a transport
error, and so does the final attempt after the reconnect. -/
def modelEnvAllFail : ModelEnv Nat :=
  { attempts := fun _ => .requestError, reconnect_ok := true,
    final := .requestError }

/-! ## Connection registry (`_aufe_connections` and the classmethods,
client.py lines 29, 1048-1109) -/

/-- `AUFEConnection.is_active`: not closed, last used within the configured
`ACTIVITY_TIMEOUT` window, and healthy. `timeout` is the configured
`AUFEConfig.ACTIVITY_TIMEOUT`. -/
def is_active (s : AUFEConnState) (now timeout : Nat) : Bool :=
  !s.is_closed && decide (now - s.last_activity < timeout) && s.health.is_healthy

/-- A pooled connection: the Python object identity (so that "the same
Connection instance" is expressible) together with its state. -/
structure PooledConn where
  conn_id : Nat
  st : AUFEConnState
deriving DecidableEq, Repr

/-- The module-level pool `_aufe_connections`, plus a counter supplying
fresh object identities. -/
structure ConnPool where
  pool : List (String × PooledConn)
  next_id : Nat
deriving DecidableEq, Repr

/-- Dictionary lookup `_aufe_connections.get(student_id)`. -/
def poolLookup : List (String × PooledConn) → String → Option PooledConn
  | [], _ => none
  | (k, v) :: rest, key => if k = key then some v else poolLookup rest key

/-- Dictionary assignment `_aufe_connections[student_id] = conn`. -/
def poolAssign : List (String × PooledConn) → String → PooledConn →
    List (String × PooledConn)
  | [], key, v => [(key, v)]
  | (k, v') :: rest, key, v =>
      if k = key then (key, v) :: rest else (k, v') :: poolAssign rest key v

/-- Dictionary deletion `del _aufe_connections[student_id]` (performed by
`close()`). -/
def poolRemove : List (String × PooledConn) → String → List (String × PooledConn)
  | [], _ => []
  | (k, v) :: rest, key =>
      if k = key then rest else (k, v) :: poolRemove rest key

/-- `AUFEConnection.create_or_get_connection`: if an entry exists and is
active, touch its activity timestamp and return it; otherwise close the
stale entry (the `asyncio.create_task(existing_conn.close())` is modelled
as completing at once) and construct a fresh connection. Registration is
performed by `__init__` only under its `if student_id:` guard, and the
`del` inside `close()` is likewise guarded by `if self.student_id and ...`:
a falsy (empty) identity is neither registered nor removed. -/
def create_or_get_connection (p : ConnPool) (sid : String) (now timeout : Nat) :
    PooledConn × ConnPool :=
  match poolLookup p.pool sid with
  | some c =>
      if is_active c.st now timeout then
        let c' : PooledConn := { c with st := { c.st with last_activity := now } }
        (c', { p with pool := poolAssign p.pool sid c' })
      else
        let c' : PooledConn := { conn_id := p.next_id, st := AUFEConnState.init now }
        (c', { pool := if sid = "" then p.pool
                       else poolAssign (poolRemove p.pool sid) sid c',
               next_id := p.next_id + 1 })
  | none =>
      let c' : PooledConn := { conn_id := p.next_id, st := AUFEConnState.init now }
      (c', { pool := if sid = "" then p.pool else poolAssign p.pool sid c',
             next_id := p.next_id + 1 })

/-! ## SSO password encryption (`AUFEConnection._encrypt_password`,
client.py lines 526-561) -/

/-- Python `str.encode("utf-8")` for one character (code point → bytes). -/
def utf8Char (c : Char) : List Nat :=
  let n := c.toNat
  if n < 128 then [n]
  else if n < 2048 then [192 + n / 64, 128 + n % 64]
  else if n < 65536 then [224 + n / 4096, 128 + n / 64 % 64, 128 + n % 64]
  else [240 + n / 262144, 128 + n / 4096 % 64, 128 + n / 64 % 64, 128 + n % 64]

/-- Python `s.encode("utf-8")` as a list of byte values. -/
def utf8Bytes (s : String) : List Nat :=
  s.data.foldr (fun c acc => utf8Char c ++ acc) []

/-- The `padding.PKCS7(64)` padder: append `padLen` copies of `padLen`,
where `padLen = 8 - len % 8` (always in 1..8). -/
def pkcs7Pad8 (bs : List Nat) : List Nat :=
  bs ++ List.replicate (8 - bs.length % 8) (8 - bs.length % 8)

/-- Split a padded byte list into the 8-byte blocks ECB mode encrypts. -/
def chunks8 : List Nat → List (List Nat)
  | b1 :: b2 :: b3 :: b4 :: b5 :: b6 :: b7 :: b8 :: rest =>
      [b1, b2, b3, b4, b5, b6, b7, b8] :: chunks8 rest
  | [] => []
  | l => [l]

/-- Modelled from the spec: the single-DES block primitive of the
`cryptography` library (library code, not part of this repository),
abstracted to an 8-byte-key, 8-byte-block cipher together with the law that
decryption inverts encryption. -/
structure DESImpl where
  encryptBlock : List Nat → List Nat → List Nat
  decryptBlock : List Nat → List Nat → List Nat
  decrypt_encrypt : ∀ k b, decryptBlock k (encryptBlock k b) = b

/-- One TripleDES (EDE: encrypt/decrypt/encrypt) block operation from three
single-DES subkeys. -/
def tdesBlock (D : DESImpl) (k1 k2 k3 b : List Nat) : List Nat :=
  D.encryptBlock k3 (D.decryptBlock k2 (D.encryptBlock k1 b))

/-- `algorithms.TripleDES(key)` with an 8-byte (64-bit) key: the
`cryptography` library expands it as `K1 = K2 = K3 = key`. -/
def tdesFromKey8 (D : DESImpl) (key b : List Nat) : List Nat :=
  tdesBlock D key key key b

/-- The base64 alphabet. -/
def b64Alphabet : List Char :=
  "ABCDEFGHIJKLMNOPQRSTUVWXYZabcdefghijklmnopqrstuvwxyz0123456789+/".data

/-- The base64 digit for a 6-bit value. -/
def b64Char (n : Nat) : Char := b64Alphabet.getD n 'A'

/-- `base64.b64encode` over byte values. -/
def b64encodeBytes : List Nat → List Char
  | b1 :: b2 :: b3 :: rest =>
      b64Char (b1 / 4) :: b64Char (b1 % 4 * 16 + b2 / 16) ::
        b64Char (b2 % 16 * 4 + b3 / 64) :: b64Char (b3 % 64) ::
        b64encodeBytes rest
  | [b1, b2] =>
      [b64Char (b1 / 4), b64Char (b1 % 4 * 16 + b2 / 16),
        b64Char (b2 % 16 * 4), '=']
  | [b1] => [b64Char (b1 / 4), b64Char (b1 % 4 * 16), '=', '=']
  | [] => []

/-- `AUFEConnection._encrypt_password`: take the first 8 UTF-8 bytes of the
key (zero-padded on the right to 8), PKCS7-pad the UTF-8 password, encrypt
each 8-byte block in ECB mode with a cipher built by
`algorithms.TripleDES(key_bytes)`, and base64-encode the ciphertext. -/
def encrypt_password (D : DESImpl) (password key : String) : String :=
  let key_taken := (utf8Bytes key).take 8
  let key_bytes := key_taken ++ List.replicate (8 - key_taken.length) 0
  let padded_data := pkcs7Pad8 (utf8Bytes password)
  let encrypted := List.flatten ((chunks8 padded_data).map (tdesFromKey8 D key_bytes))
  String.mk (b64encodeBytes encrypted)

/-- The spec's reference computation for `_encrypt_password`: identical,
except that each block is encrypted with *single* DES under the same
derived 8-byte key. -/
def encrypt_password_des_ref (D : DESImpl) (password key : String) : String :=
  let key_taken := (utf8Bytes key).take 8
  let key_bytes := key_taken ++ List.replicate (8 - key_taken.length) 0
  let padded_data := pkcs7Pad8 (utf8Bytes password)
  let encrypted := List.flatten ((chunks8 padded_data).map (D.encryptBlock key_bytes))
  String.mk (b64encodeBytes encrypted)

/-- A toy instantiation of the DES block primitive (the identity cipher),
used to evaluate the encryption pipeline on concrete inputs. -/
def idDES : DESImpl :=
  { encryptBlock := fun _ b => b, decryptBlock := fun _ b => b,
    decrypt_encrypt := fun _ _ => rfl }

end AUFE

/-! Theorems for claim C7. -/

/-- C7: a `ConnectionHealth` starts healthy with `error_count = 0`;
`mark_error` increments `error_count` and clears `is_healthy`; `mark_healthy`
sets `is_healthy` and zeroes `error_count`; `should_reconnect` is true exactly
when the record is unhealthy or `error_count ≥ 3`; in particular it is true
immediately after three consecutive `mark_error` calls and false immediately
after `mark_healthy`. -/
theorem C7_health_record_lifecycle :
    (∀ t0 : Nat, (AUFE.ConnectionHealth.init t0).is_healthy = true ∧
      (AUFE.ConnectionHealth.init t0).error_count = 0) ∧
    (∀ (h : AUFE.ConnectionHealth) (e : AUFE.AUFEErr) (t : Nat),
      (h.mark_error e t).error_count = h.error_count + 1 ∧
      (h.mark_error e t).is_healthy = false) ∧
    (∀ (h : AUFE.ConnectionHealth) (t : Nat),
      (h.mark_healthy t).is_healthy = true ∧ (h.mark_healthy t).error_count = 0) ∧
    (∀ h : AUFE.ConnectionHealth,
      h.should_reconnect = (!h.is_healthy || decide (h.error_count ≥ 3))) ∧
    (∀ (h : AUFE.ConnectionHealth) (e1 e2 e3 : AUFE.AUFEErr) (t1 t2 t3 : Nat),
      (((h.mark_error e1 t1).mark_error e2 t2).mark_error e3 t3).should_reconnect = true) ∧
    (∀ (h : AUFE.ConnectionHealth) (t : Nat),
      (h.mark_healthy t).should_reconnect = false) := by
  refine ⟨fun t0 => ⟨rfl, rfl⟩, fun h e t => ⟨rfl, rfl⟩, fun h t => ⟨rfl, rfl⟩,
    fun h => rfl, fun h e1 e2 e3 t1 t2 t3 => rfl, fun h t => rfl⟩

/-- C8: for every retry policy with `max_attempts ≥ 1` and every operation
whose first call fails with an exception the policy does not classify as
retryable, the retry executor makes exactly one attempt, performs no sleep,
and propagates that exception immediately. -/
theorem C8_nonretryable_propagates_immediately {ε α : Type}
    (cfg : AUFE.RetryConfig ε) (op : Nat → Except ε α) (jf : Nat → ℚ) (e : ε)
    (hmax : 1 ≤ cfg.max_attempts) (hop : op 0 = Except.error e)
    (hnr : cfg.retry_on e = false) :
    AUFE.retryRun cfg op jf =
      { result := Except.error e, attempts_made := 1, sleeps := [] } := by
  obtain ⟨n, hn⟩ : ∃ n, cfg.max_attempts = n + 1 :=
    ⟨cfg.max_attempts - 1, (Nat.succ_pred_eq_of_pos hmax).symm⟩
  simp [AUFE.retryRun, hn, AUFE.retryGo, hop, hnr]

/-- Witness for C8: a concrete policy with `max_attempts = 2` and an
operation that always raises a non-retryable `loginError`. -/
theorem C8_nonretryable_propagates_immediately_witness :
    AUFE.retryRun
      { max_attempts := 2, strategy := .exponential_backoff, base_delay := 1,
        max_delay := 30, exponential_base := 2, jitter := true,
        retry_on := fun e => decide (e = AUFE.AUFEErr.connectionError) }
      (fun _ => (Except.error AUFE.AUFEErr.loginError : Except AUFE.AUFEErr Nat))
      (fun _ => 1) =
      { result := Except.error AUFE.AUFEErr.loginError, attempts_made := 1,
        sleeps := [] } :=
  C8_nonretryable_propagates_immediately _ _ _ _ (by decide) rfl (by decide)

/-! Helper lemmas about flag preservation, shared by several claims. -/

theorem loginStep_preserves_uaap (s : AUFE.AUFEConnState) (env : AUFE.LoginEnv)
    (now : Nat) :
    (AUFE.loginStep s env now).2.uaap_logged_in = s.uaap_logged_in := by
  unfold AUFE.loginStep
  repeat' split
  all_goals rfl

theorem uaapLoginStep_preserves_vpn (s : AUFE.AUFEConnState) (env : AUFE.UaapEnv)
    (now : Nat) :
    (AUFE.uaapLoginStep s env now).2.logged_in = s.logged_in := by
  unfold AUFE.uaapLoginStep
  repeat' split
  all_goals rfl

theorem healthCheckStep_preserves_flags (s : AUFE.AUFEConnState)
    (probe : AUFE.NetResult Nat) (now : Nat) :
    (AUFE.healthCheckStep s probe now).logged_in = s.logged_in ∧
    (AUFE.healthCheckStep s probe now).uaap_logged_in = s.uaap_logged_in := by
  unfold AUFE.healthCheckStep
  repeat' split
  all_goals exact ⟨rfl, rfl⟩

theorem loginStep_sets_vpn_only_on_success (s : AUFE.AUFEConnState)
    (env : AUFE.LoginEnv) (now : Nat) (hv : s.logged_in = false) :
    (AUFE.loginStep s env now).2.logged_in = true →
    (AUFE.loginStep s env now).1 = Except.ok true := by
  unfold AUFE.loginStep
  repeat' split
  all_goals simp_all

theorem uaapLoginStep_sets_sso_only_on_success (s : AUFE.AUFEConnState)
    (env : AUFE.UaapEnv) (now : Nat) (hu : s.uaap_logged_in = false) :
    (AUFE.uaapLoginStep s env now).2.uaap_logged_in = true →
    (AUFE.uaapLoginStep s env now).1 = Except.ok true := by
  unfold AUFE.uaapLoginStep
  repeat' split
  all_goals simp_all

/-! Theorems for claim C2. -/

/-- C2 counterexample: from a freshly constructed connection (never
VPN-authenticated), one successful SSO login attempt reaches a state with
`ssoAuthenticated = true` but `vpnAuthenticated = false` — `uaap_login`
never consults `_logged_in`, so the claimed invariant fails on a reachable
state. -/
theorem C2_counterexample :
    AUFE.Reachable
      (AUFE.uaapLoginStep (AUFE.AUFEConnState.init 0) AUFE.uaapEnvFreshSuccess 0).2 ∧
    (AUFE.uaapLoginStep (AUFE.AUFEConnState.init 0)
        AUFE.uaapEnvFreshSuccess 0).2.uaap_logged_in = true ∧
    (AUFE.uaapLoginStep (AUFE.AUFEConnState.init 0)
        AUFE.uaapEnvFreshSuccess 0).2.logged_in = false :=
  ⟨AUFE.Reachable.uaap AUFE.uaapEnvFreshSuccess 0 (AUFE.Reachable.init 0),
   by decide, by decide⟩

/-- C2 amended: the code does not enforce the invariant
`ssoAuthenticated → vpnAuthenticated`; it holds only for disciplined
traces, in which an SSO login is attempted only while VPN-authenticated and
a VPN login is attempted only while not SSO-authenticated. -/
theorem C2_sso_implies_vpn_disciplined (s : AUFE.AUFEConnState)
    (hs : AUFE.ReachableDisciplined s) (hsso : s.uaap_logged_in = true) :
    s.logged_in = true := by
  induction hs with
  | init now => simp [AUFE.AUFEConnState.init] at hsso
  | login env now _hr hguard _ih =>
      rw [loginStep_preserves_uaap] at hsso
      rw [hguard] at hsso
      exact absurd hsso (by simp)
  | uaap env now _hr hguard _ih =>
      rw [uaapLoginStep_preserves_vpn]
      exact hguard
  | reconnect close_ok now _hr ih =>
      cases close_ok with
      | true => simp [AUFE.reconnectStep] at hsso
      | false => exact ih hsso
  | healthCheck probe now _hr ih =>
      rw [(healthCheckStep_preserves_flags _ probe now).2] at hsso
      rw [(healthCheckStep_preserves_flags _ probe now).1]
      exact ih hsso
  | healthSet h _hr ih => exact ih hsso
  | close _hr ih => exact ih hsso
  | touch now _hr ih => exact ih hsso

/-- Witness for C2: the canonical disciplined trace — successful VPN login,
then successful SSO login — reaches a state where the theorem applies. -/
theorem C2_sso_implies_vpn_disciplined_witness :
    (AUFE.uaapLoginStep (AUFE.loginStep (AUFE.AUFEConnState.init 0)
        AUFE.loginEnvSuccess 0).2 AUFE.uaapEnvFreshSuccess 1).2.logged_in = true :=
  C2_sso_implies_vpn_disciplined _
    (AUFE.ReachableDisciplined.uaap AUFE.uaapEnvFreshSuccess 1
      (AUFE.ReachableDisciplined.login AUFE.loginEnvSuccess 0
        (AUFE.ReachableDisciplined.init 0) (by decide))
      (by decide))
    (by decide)

/-! Theorems for claim C3. -/

/-- C3 counterexample: a fully authenticated, healthy connection suffers a
failed SSO re-login (the POST is answered with an inline error page, no
redirect): `uaap_login` returns `False`, yet both authentication flags are
still `true` afterwards — the failure paths do not clear them. -/
theorem C3_counterexample :
    (AUFE.uaapLoginStep AUFE.fullyAuthState AUFE.uaapEnvRejected 5).1 =
      Except.ok false ∧
    (AUFE.uaapLoginStep AUFE.fullyAuthState AUFE.uaapEnvRejected 5).2.logged_in = true ∧
    (AUFE.uaapLoginStep AUFE.fullyAuthState
        AUFE.uaapEnvRejected 5).2.uaap_logged_in = true := by
  refine ⟨by decide, by decide, by decide⟩

/-- C3 amended: a failed login attempt never *sets* a flag — starting from a
connection with both authentication flags false, every failing VPN-login or
SSO-login attempt (early extraction failure, credential rejection, or raised
exception) leaves both flags false. (Failure paths leave previously set
flags unchanged, so the original "regardless of the flags' values before"
does not hold.) -/
theorem C3_failed_login_from_unauthenticated (s : AUFE.AUFEConnState)
    (envL : AUFE.LoginEnv) (envU : AUFE.UaapEnv) (now : Nat)
    (hv : s.logged_in = false) (hu : s.uaap_logged_in = false) :
    ((AUFE.loginStep s envL now).1 ≠ Except.ok true →
      (AUFE.loginStep s envL now).2.logged_in = false ∧
      (AUFE.loginStep s envL now).2.uaap_logged_in = false) ∧
    ((AUFE.uaapLoginStep s envU now).1 ≠ Except.ok true →
      (AUFE.uaapLoginStep s envU now).2.logged_in = false ∧
      (AUFE.uaapLoginStep s envU now).2.uaap_logged_in = false) := by
  constructor
  · intro hfail
    refine ⟨?_, by rw [loginStep_preserves_uaap]; exact hu⟩
    cases hvpn : (AUFE.loginStep s envL now).2.logged_in with
    | false => rfl
    | true => exact absurd (loginStep_sets_vpn_only_on_success s envL now hv hvpn) hfail
  · intro hfail
    refine ⟨by rw [uaapLoginStep_preserves_vpn]; exact hv, ?_⟩
    cases hsso : (AUFE.uaapLoginStep s envU now).2.uaap_logged_in with
    | false => rfl
    | true => exact absurd (uaapLoginStep_sets_sso_only_on_success s envU now hu hsso) hfail

/-- Witness for C3: a fresh connection, a VPN login rejected by the portal
(marker absent) and an SSO login with a missing `execution` field. -/
theorem C3_failed_login_from_unauthenticated_witness :
    (AUFE.loginStep (AUFE.AUFEConnState.init 0)
        AUFE.loginEnvRejected 0).2.logged_in = false ∧
    (AUFE.loginStep (AUFE.AUFEConnState.init 0)
        AUFE.loginEnvRejected 0).2.uaap_logged_in = false ∧
    (AUFE.uaapLoginStep (AUFE.AUFEConnState.init 0)
        AUFE.uaapEnvNoExecution 0).2.logged_in = false ∧
    (AUFE.uaapLoginStep (AUFE.AUFEConnState.init 0)
        AUFE.uaapEnvNoExecution 0).2.uaap_logged_in = false := by
  have h := C3_failed_login_from_unauthenticated (AUFE.AUFEConnState.init 0)
    AUFE.loginEnvRejected AUFE.uaapEnvNoExecution 0 (by decide) (by decide)
  have h1 := h.1 (by decide)
  have h2 := h.2 (by decide)
  exact ⟨h1.1, h1.2, h2.1, h2.2⟩

/-! Theorems for claim C4. -/

/-- C4 counterexample: an SSO login POST answered `301` with a `Location`
header is a redirect of the 3xx class, yet `uaap_login` returns `False` and
does not set `_uaap_logged_in` — the code accepts status `302` only. -/
theorem C4_counterexample :
    (AUFE.uaapLoginStep (AUFE.AUFEConnState.init 0) AUFE.uaapEnv301 0).1 =
      Except.ok false ∧
    (AUFE.uaapLoginStep (AUFE.AUFEConnState.init 0)
        AUFE.uaapEnv301 0).2.uaap_logged_in = false := by
  exact ⟨by decide, by decide⟩

/-- C4 amended: given a login page that yields both tokens and a POST that
returns a response, the SSO login succeeds (returns `True`, sets
`_uaap_logged_in`, captures the response cookies) exactly when the POST
status is `302` — not any 3xx — and the `Location` header is present and
non-empty. -/
theorem C4_success_iff_302_with_location (s : AUFE.AUFEConnState)
    (env : AUFE.UaapEnv) (page : AUFE.UaapPageFields) (post : AUFE.UaapPostFields)
    (now : Nat)
    (hpage : env.page_resp = .ok page) (h200 : page.status_code = 200)
    (hlt : page.lt.isSome = true) (hex : page.execution.isSome = true)
    (hpost : env.post_resp = .ok post) :
    ((AUFE.uaapLoginStep s env now).1 = Except.ok true ∧
      (AUFE.uaapLoginStep s env now).2.uaap_logged_in = true ∧
      (AUFE.uaapLoginStep s env now).2.uaap_cookies = some post.cookies)
    ↔ (post.status_code = 302 ∧ post.location.getD "" ≠ "") := by
  obtain ⟨lt, hlt'⟩ := Option.isSome_iff_exists.mp hlt
  obtain ⟨ex, hex'⟩ := Option.isSome_iff_exists.mp hex
  unfold AUFE.uaapLoginStep
  by_cases h302 : post.status_code = 302
  · by_cases hloc : post.location.getD "" = ""
    · simp [hpage, hlt', hex', hpost, h200, h302, hloc]
    · simp [hpage, hlt', hex', hpost, h200, h302, hloc]
  · simp [hpage, hlt', hex', hpost, h200, h302]

/-- Witness for C4: a 302 response carrying a `Location` header succeeds. -/
theorem C4_success_iff_302_with_location_witness :
    (AUFE.uaapLoginStep (AUFE.AUFEConnState.init 0)
        AUFE.uaapEnvFreshSuccess 0).1 = Except.ok true ∧
    (AUFE.uaapLoginStep (AUFE.AUFEConnState.init 0)
        AUFE.uaapEnvFreshSuccess 0).2.uaap_logged_in = true := by
  have h := (C4_success_iff_302_with_location (AUFE.AUFEConnState.init 0)
      AUFE.uaapEnvFreshSuccess _ _ 0 rfl rfl (by decide) (by decide) rfl).mpr
      ⟨rfl, by decide⟩
  exact ⟨h.1, h.2.1⟩

/-! Theorems for claim C5. -/

/-- C5: for a VPN login attempt on a not-yet-authenticated connection whose
initial GET yields both `TwfID` and RSA modulus (and the encryption step
succeeds), `login` returns `True` and sets `_logged_in` exactly when the
POST body contains `<Result>1</Result>`; if the marker is absent the attempt
returns `False` with `_logged_in` false, and if `TwfID` or the modulus is
missing from the first response the attempt returns `False` (no exception,
so the retry wrapper does not re-try) and `_logged_in` stays false. -/
theorem C5_login_result_matches_marker (s : AUFE.AUFEConnState)
    (env : AUFE.LoginEnv) (fields : AUFE.LoginAuthFields) (now : Nat)
    (hv : s.logged_in = false) (hauth : env.auth_resp = .ok fields) :
    ((fields.twfid = none ∨ fields.rsa_key = none) →
      (AUFE.loginStep s env now).1 = Except.ok false ∧
      (AUFE.loginStep s env now).2.logged_in = false) ∧
    (∀ body : String, fields.twfid.isSome = true → fields.rsa_key.isSome = true →
      env.encrypt_ok = true → env.post_resp = .ok body →
      (AUFE.loginStep s env now).1 =
        Except.ok (AUFE.strHasSub AUFE.resultMarker body) ∧
      (AUFE.loginStep s env now).2.logged_in =
        AUFE.strHasSub AUFE.resultMarker body) := by
  constructor
  · intro hmiss
    unfold AUFE.loginStep
    rcases hmiss with h | h
    · simp [hauth, h, hv]
    · cases htw : fields.twfid with
      | none => simp [hauth, htw, hv]
      | some t => simp [hauth, htw, h, hv]
  · intro body htw hrk henc hpost
    obtain ⟨t, ht⟩ := Option.isSome_iff_exists.mp htw
    obtain ⟨k, hk⟩ := Option.isSome_iff_exists.mp hrk
    unfold AUFE.loginStep
    by_cases hm : AUFE.strHasSub AUFE.resultMarker body = true
    · simp [hauth, ht, hk, henc, hpost, hm]
    · rw [Bool.not_eq_true] at hm
      simp [hauth, ht, hk, henc, hpost, hm]

/-- Witness for C5: the end-to-end success scenario of the spec — token and
modulus present, POST body carrying `<Result>1</Result>`. -/
theorem C5_login_result_matches_marker_witness :
    (AUFE.loginStep (AUFE.AUFEConnState.init 0) AUFE.loginEnvSuccess 0).1 =
      Except.ok true ∧
    (AUFE.loginStep (AUFE.AUFEConnState.init 0)
        AUFE.loginEnvSuccess 0).2.logged_in = true := by
  have h := (C5_login_result_matches_marker (AUFE.AUFEConnState.init 0)
      AUFE.loginEnvSuccess _ 0 (by decide) rfl).2
      "<Message><Result>1</Result></Message>" (by decide) (by decide) rfl rfl
  have hm : AUFE.strHasSub AUFE.resultMarker
      "<Message><Result>1</Result></Message>" = true := by decide
  rw [hm] at h
  exact h

/-! Theorems for claim C10. -/

/-- C10: `login_status` and `uaap_login_status` are exactly "flag set AND
health record healthy": one `mark_error` flips both status queries to false
while both login flags stay set, and a subsequent `mark_healthy` restores
both to true. -/
theorem C10_status_gated_by_health (s : AUFE.AUFEConnState) (e : AUFE.AUFEErr)
    (t1 t2 : Nat) (hv : s.logged_in = true) (hu : s.uaap_logged_in = true)
    (hh : s.health.is_healthy = true) :
    (∀ s' : AUFE.AUFEConnState,
        AUFE.login_status s' = (s'.logged_in && s'.health.is_healthy) ∧
        AUFE.uaap_login_status s' = (s'.uaap_logged_in && s'.health.is_healthy)) ∧
    AUFE.login_status s = true ∧
    AUFE.uaap_login_status s = true ∧
    AUFE.login_status { s with health := s.health.mark_error e t1 } = false ∧
    AUFE.uaap_login_status { s with health := s.health.mark_error e t1 } = false ∧
    ({ s with health := s.health.mark_error e t1 } : AUFE.AUFEConnState).logged_in
      = true ∧
    ({ s with
        health := s.health.mark_error e t1 } : AUFE.AUFEConnState).uaap_logged_in
      = true ∧
    AUFE.login_status
      { s with health := (s.health.mark_error e t1).mark_healthy t2 } = true ∧
    AUFE.uaap_login_status
      { s with health := (s.health.mark_error e t1).mark_healthy t2 } = true := by
  refine ⟨fun s' => ⟨rfl, rfl⟩, ?_⟩
  simp [AUFE.login_status, AUFE.uaap_login_status, AUFE.ConnectionHealth.mark_error,
    AUFE.ConnectionHealth.mark_healthy, hv, hu, hh]

/-- Witness for C10: the fully authenticated healthy connection. -/
theorem C10_status_gated_by_health_witness :
    AUFE.login_status { AUFE.fullyAuthState with
      health := AUFE.fullyAuthState.health.mark_error
        AUFE.AUFEErr.connectionError 1 } = false ∧
    AUFE.uaap_login_status { AUFE.fullyAuthState with
      health := AUFE.fullyAuthState.health.mark_error
        AUFE.AUFEErr.connectionError 1 } = false ∧
    AUFE.login_status { AUFE.fullyAuthState with
      health := (AUFE.fullyAuthState.health.mark_error
        AUFE.AUFEErr.connectionError 1).mark_healthy 2 } = true := by
  have h := C10_status_gated_by_health AUFE.fullyAuthState
    AUFE.AUFEErr.connectionError 1 2 (by decide) (by decide) (by decide)
  exact ⟨h.2.2.2.1, h.2.2.2.2.1, h.2.2.2.2.2.2.2.1⟩

/-! Helper lemmas for the typed-request executor. -/

theorem sendLoop_exhausts {α : Type} (attempts : Nat → AUFE.ReqOutcome α)
    (now : Nat) :
    ∀ (fuel i : Nat) (last : Option AUFE.ReqError) (s : AUFE.AUFEConnState),
      1 ≤ fuel →
      (∀ j, j < fuel → AUFE.retryableFailure (attempts (i + j))) →
      ∃ (e : AUFE.ReqError) (s' : AUFE.AUFEConnState),
        AUFE.sendLoop attempts now i fuel last s =
          (AUFE.LoopExit.exhausted (some e), s') ∧
        s'.health.is_healthy = false := by
  intro fuel
  induction fuel with
  | zero => intro i last s h; exact absurd h (by omega)
  | succ n ih =>
      intro i last s _ hall
      have h0 : AUFE.retryableFailure (attempts (i + 0)) := hall 0 (Nat.succ_pos n)
      rw [Nat.add_zero] at h0
      have hall' : n ≠ 0 →
          ∀ j, j < n → AUFE.retryableFailure (attempts (i + 1 + j)) := by
        intro _ j hj
        have := hall (j + 1) (by omega)
        rwa [show i + (j + 1) = i + 1 + j by omega] at this
      rcases ho : attempts i with _ | ⟨status, parsed⟩ | _
      · rw [ho] at h0
        rcases n with _ | m
        · exact ⟨.aufe .connectionError,
            { s with health := s.health.mark_error .connectionError now },
            by simp [AUFE.sendLoop, ho], rfl⟩
        · obtain ⟨e, s', hs, hh⟩ := ih (i + 1) (some (.aufe .connectionError))
            { s with health := s.health.mark_error .connectionError now }
            (by omega) (hall' (by omega))
          refine ⟨e, s', ?_, hh⟩
          rw [show AUFE.sendLoop attempts now i (m + 1 + 1) last s =
              AUFE.sendLoop attempts now (i + 1) (m + 1)
                (some (.aufe .connectionError))
                { s with health := s.health.mark_error .connectionError now }
            from by simp [AUFE.sendLoop, ho]]
          exact hs
      · rw [ho] at h0
        by_cases hst : status = 200
        · subst hst
          rcases parsed with _ | m
          · rcases n with _ | m
            · exact ⟨.aufe .parseError,
                { s with health := s.health.mark_error .parseError now },
                by simp [AUFE.sendLoop, ho], rfl⟩
            · obtain ⟨e, s', hs, hh⟩ := ih (i + 1) (some (.aufe .parseError))
                { s with health := s.health.mark_error .parseError now }
                (by omega) (hall' (by omega))
              refine ⟨e, s', ?_, hh⟩
              rw [show AUFE.sendLoop attempts now i (m + 1 + 1) last s =
                  AUFE.sendLoop attempts now (i + 1) (m + 1)
                    (some (.aufe .parseError))
                    { s with health := s.health.mark_error .parseError now }
                from by simp [AUFE.sendLoop, ho]]
              exact hs
          · simp [AUFE.retryableFailure] at h0
        · rcases n with _ | m
          · exact ⟨.aufe .connectionError,
              { s with health := s.health.mark_error .connectionError now },
              by simp [AUFE.sendLoop, ho, hst], rfl⟩
          · obtain ⟨e, s', hs, hh⟩ := ih (i + 1) (some (.aufe .connectionError))
              { s with health := s.health.mark_error .connectionError now }
              (by omega) (hall' (by omega))
            refine ⟨e, s', ?_, hh⟩
            rw [show AUFE.sendLoop attempts now i (m + 1 + 1) last s =
                AUFE.sendLoop attempts now (i + 1) (m + 1)
                  (some (.aufe .connectionError))
                  { s with health := s.health.mark_error .connectionError now }
              from by simp [AUFE.sendLoop, ho, hst]]
            exact hs
      · rw [ho] at h0
        exact h0.elim

theorem finalAttempt_fails {α : Type} (o : AUFE.ReqOutcome α) (now : Nat)
    (s : AUFE.AUFEConnState) (h : AUFE.notSuccess o) :
    (AUFE.finalAttempt o now s).1 =
      Except.error (AUFE.ReqError.aufe AUFE.AUFEErr.connectionError) ∧
    (AUFE.finalAttempt o now s).2.health.is_healthy = false := by
  rcases o with _ | ⟨status, parsed⟩ | _
  · exact ⟨rfl, rfl⟩
  · by_cases hst : status = 200
    · subst hst
      rcases parsed with _ | m
      · exact ⟨rfl, rfl⟩
      · exact h.elim
    · simp [AUFE.finalAttempt, hst, AUFE.ConnectionHealth.mark_error]
  · exact ⟨rfl, rfl⟩

/-! Theorems for claim C1. -/

/-- C1 counterexample: one attempt allowed, the attempt fails with a
transport error, the reconnect succeeds, the final attempt fails with a
transport error again. The Health Record is left unhealthy, but
`model_request` returns `None` (`.ok none`) to the caller — it does not
propagate a typed error (the error raised by the retry layer is caught by
`except Exception: ... return None`). -/
theorem C1_counterexample :
    (AUFE.modelRequest AUFE.modelEnvAllFail 1 true false "GET:url:0" 0
        (AUFE.AUFEConnState.init 0) []).1 = Except.ok none ∧
    (AUFE.modelRequest AUFE.modelEnvAllFail 1 true false "GET:url:0" 0
        (AUFE.AUFEConnState.init 0) []).2.1.health.is_healthy = false :=
  ⟨rfl, rfl⟩

/-- C1 amended: when every attempt in the retry budget fails retryably and
the final attempt after the reconnect-and-retry cycle also fails, the retry
layer (`_send_model_request_with_retry`) does raise a typed error of the
failure taxonomy and leaves the Health Record unhealthy; `model_request`
itself, however, catches that error and returns `None` to its caller (the
Health Record still left unhealthy) — the typed error is logged, not
propagated. -/
theorem C1_exhaustion_typed_error_swallowed_by_model_request {α : Type}
    (env : AUFE.ModelEnv α) (max_attempts : Nat)
    (use_cache force_reconnect : Bool) (cache_key : String) (now : Nat)
    (s : AUFE.AUFEConnState) (cache : List (String × α × Nat))
    (hmax : 1 ≤ max_attempts)
    (hall : ∀ i, i < max_attempts → AUFE.retryableFailure (env.attempts i))
    (hfinal : AUFE.notSuccess env.final)
    (hrec : env.reconnect_ok = true)
    (hmiss : use_cache = true →
      (AUFE.getCachedResponse cache cache_key now).1 = none) :
    (∀ s0 : AUFE.AUFEConnState,
      (AUFE.sendWithRetry env max_attempts now s0).1 =
        Except.error (AUFE.ReqError.aufe AUFE.AUFEErr.connectionError) ∧
      (AUFE.sendWithRetry env max_attempts now s0).2.health.is_healthy = false) ∧
    (AUFE.modelRequest env max_attempts use_cache force_reconnect cache_key now
        s cache).1 = Except.ok none ∧
    (AUFE.modelRequest env max_attempts use_cache force_reconnect cache_key now
        s cache).2.1.health.is_healthy = false := by
  have hretry : ∀ s0 : AUFE.AUFEConnState,
      (AUFE.sendWithRetry env max_attempts now s0).1 =
        Except.error (AUFE.ReqError.aufe AUFE.AUFEErr.connectionError) ∧
      (AUFE.sendWithRetry env max_attempts now s0).2.health.is_healthy = false := by
    intro s0
    obtain ⟨e, s', hloop, hunh⟩ := sendLoop_exhausts env.attempts now max_attempts 0
      none s0 hmax (by intro j hj; simpa using hall j hj)
    have hsr : s'.health.should_reconnect = true := by
      simp [AUFE.ConnectionHealth.should_reconnect, hunh]
    have hfin := finalAttempt_fails env.final now
      { s' with logged_in := false, uaap_logged_in := false,
                twf_id := none, uaap_cookies := none,
                health := s'.health.mark_healthy now } hfinal
    unfold AUFE.sendWithRetry
    rw [hloop]
    simp only [hsr, if_true, AUFE.reconnectStep, hrec]
    exact hfin
  refine ⟨hretry, ?_⟩
  unfold AUFE.modelRequest
  have hcachecase :
      (if use_cache then AUFE.getCachedResponse cache cache_key now
       else (none, cache)) =
      (none, (if use_cache then AUFE.getCachedResponse cache cache_key now
              else (none, cache)).2) := by
    cases use_cache with
    | false => rfl
    | true =>
        simp only [if_true]
        rcases hgc : AUFE.getCachedResponse cache cache_key now with ⟨r, c2⟩
        have hr := hmiss rfl
        rw [hgc] at hr
        simp only at hr
        rw [hr]
  rw [hcachecase]
  by_cases hb : (force_reconnect || s.health.should_reconnect) = true
  · have hrc : AUFE.reconnectStep s env.reconnect_ok now =
        (Except.ok (), { s with logged_in := false, uaap_logged_in := false,
                                twf_id := none, uaap_cookies := none,
                                health := s.health.mark_healthy now }) := by
      rw [hrec]
      simp [AUFE.reconnectStep]
    rw [if_pos hb, hrc]
    dsimp only
    rcases hsw : AUFE.sendWithRetry env max_attempts now
        { s with logged_in := false, uaap_logged_in := false,
                 twf_id := none, uaap_cookies := none,
                 health := s.health.mark_healthy now } with ⟨res, s2⟩
    have h2 := hretry { s with logged_in := false, uaap_logged_in := false,
                               twf_id := none, uaap_cookies := none,
                               health := s.health.mark_healthy now }
    rw [hsw] at h2
    have h21 : res = Except.error (AUFE.ReqError.aufe AUFE.AUFEErr.connectionError) :=
      h2.1
    have h22 : s2.health.is_healthy = false := h2.2
    rw [h21]
    exact ⟨rfl, h22⟩
  · rw [if_neg hb]
    dsimp only
    rcases hsw : AUFE.sendWithRetry env max_attempts now s with ⟨res, s2⟩
    have h2 := hretry s
    rw [hsw] at h2
    have h21 : res = Except.error (AUFE.ReqError.aufe AUFE.AUFEErr.connectionError) :=
      h2.1
    have h22 : s2.health.is_healthy = false := h2.2
    rw [h21]
    exact ⟨rfl, h22⟩

/-- Witness for C1 (amended): the concrete all-failing run — the retry layer
raises the typed connection error, `model_request` returns `None`. -/
theorem C1_exhaustion_typed_error_swallowed_witness :
    (AUFE.sendWithRetry AUFE.modelEnvAllFail 1 0 (AUFE.AUFEConnState.init 0)).1 =
      Except.error (AUFE.ReqError.aufe AUFE.AUFEErr.connectionError) ∧
    (AUFE.modelRequest AUFE.modelEnvAllFail 1 true false "GET:url:1" 0
        (AUFE.AUFEConnState.init 0) []).1 = Except.ok none := by
  have h := C1_exhaustion_typed_error_swallowed_by_model_request
    AUFE.modelEnvAllFail 1 true false "GET:url:1" 0 (AUFE.AUFEConnState.init 0) []
    (by decide) (fun i _ => trivial) trivial rfl (fun _ => rfl)
  exact ⟨(h.1 (AUFE.AUFEConnState.init 0)).1, h.2.1⟩

/-! Theorems for claim C9. -/

theorem poolLookup_poolAssign_self (l : List (String × AUFE.PooledConn))
    (k : String) (v : AUFE.PooledConn) :
    AUFE.poolLookup (AUFE.poolAssign l k v) k = some v := by
  induction l with
  | nil => simp [AUFE.poolAssign, AUFE.poolLookup]
  | cons hd tl ih =>
      obtain ⟨k', v'⟩ := hd
      by_cases hk : k' = k
      · simp [AUFE.poolAssign, hk, AUFE.poolLookup]
      · simp [AUFE.poolAssign, hk, AUFE.poolLookup, ih]

/-- C9 counterexample: for the empty identity, `__init__`'s
`if student_id:` guard skips registration, so the first call's connection
is never pooled and the second call constructs a distinct instance
(object identities 0 and 1), leaving the pool empty throughout — the claim
fails at identity `""`. -/
theorem C9_counterexample :
    (AUFE.create_or_get_connection ⟨[], 0⟩ "" 10 1800).1.conn_id = 0 ∧
    (AUFE.create_or_get_connection ⟨[], 0⟩ "" 10 1800).2.pool = [] ∧
    (AUFE.create_or_get_connection
        (AUFE.create_or_get_connection ⟨[], 0⟩ "" 10 1800).2
        "" 20 1800).1.conn_id = 1 :=
  ⟨rfl, rfl, rfl⟩

/-- C9 amended: for every *non-empty* identity, two successive
`create_or_get_connection` calls, the second within the inactivity window
of the first, return the same Connection instance; the second call changes
nothing but that instance's activity timestamp. (An empty identity is never
registered, so the reuse guarantee does not hold for it.) -/
theorem C9_create_or_get_reuses_instance (p : AUFE.ConnPool) (sid : String)
    (t1 t2 timeout : Nat) (hsid : sid ≠ "") (h12 : t1 ≤ t2)
    (hwin : t2 - t1 < timeout) :
    (AUFE.create_or_get_connection
        (AUFE.create_or_get_connection p sid t1 timeout).2 sid t2
        timeout).1.conn_id =
      (AUFE.create_or_get_connection p sid t1 timeout).1.conn_id ∧
    (AUFE.create_or_get_connection
        (AUFE.create_or_get_connection p sid t1 timeout).2 sid t2 timeout).1.st =
      { (AUFE.create_or_get_connection p sid t1 timeout).1.st with
          last_activity := t2 } ∧
    (AUFE.create_or_get_connection
        (AUFE.create_or_get_connection p sid t1 timeout).2 sid t2 timeout).2 =
      { (AUFE.create_or_get_connection p sid t1 timeout).2 with
          pool := AUFE.poolAssign
            (AUFE.create_or_get_connection p sid t1 timeout).2.pool sid
            { conn_id := (AUFE.create_or_get_connection p sid t1 timeout).1.conn_id,
              st := { (AUFE.create_or_get_connection p sid t1 timeout).1.st with
                        last_activity := t2 } } } := by
  rcases h1 : AUFE.create_or_get_connection p sid t1 timeout with ⟨c1, p1⟩
  have hfacts : AUFE.poolLookup p1.pool sid = some c1 ∧
      c1.st.is_closed = false ∧ c1.st.health.is_healthy = true ∧
      c1.st.last_activity = t1 := by
    unfold AUFE.create_or_get_connection at h1
    rcases hl : AUFE.poolLookup p.pool sid with _ | c <;> rw [hl] at h1
    · simp only at h1
      rw [if_neg hsid] at h1
      injection h1 with hc hp
      subst hc
      subst hp
      exact ⟨poolLookup_poolAssign_self _ _ _, rfl, rfl, rfl⟩
    · by_cases hact1 : AUFE.is_active c.st t1 timeout = true
      · simp only [hact1, if_true] at h1
        injection h1 with hc hp
        subst hc
        subst hp
        have h3 := hact1
        simp only [AUFE.is_active, Bool.and_eq_true, Bool.not_eq_true',
          decide_eq_true_eq] at h3
        exact ⟨poolLookup_poolAssign_self _ _ _, h3.1.1, h3.2, rfl⟩
      · simp only [hact1, if_false] at h1
        rw [if_neg hsid] at h1
        injection h1 with hc hp
        subst hc
        subst hp
        exact ⟨poolLookup_poolAssign_self _ _ _, rfl, rfl, rfl⟩
  obtain ⟨hlk, hcl, hhl, hla⟩ := hfacts
  have hact2 : AUFE.is_active c1.st t2 timeout = true := by
    simp [AUFE.is_active, hcl, hhl, hla, hwin]
  unfold AUFE.create_or_get_connection
  rw [hlk]
  simp only [hact2, if_true]
  refine ⟨?_, ?_, ?_⟩ <;> first | rfl | trivial

/-- Witness for C9: an empty pool, identity "20230001", first call at time
10, second call at time 20, a 1800-second window. -/
theorem C9_create_or_get_reuses_instance_witness :
    (AUFE.create_or_get_connection
        (AUFE.create_or_get_connection ⟨[], 0⟩ "20230001" 10 1800).2
        "20230001" 20 1800).1.conn_id =
      (AUFE.create_or_get_connection ⟨[], 0⟩ "20230001" 10 1800).1.conn_id :=
  (C9_create_or_get_reuses_instance ⟨[], 0⟩ "20230001" 10 20 1800
    (by decide) (by decide) (by decide)).1

/-! Theorems for claim C6. -/

/-- C6: for every password and non-empty key string, `_encrypt_password` —
which builds a TripleDES cipher from the 8-byte key derived from the first
8 bytes of the key string (zero-padded) — computes exactly the base64 of
the single-DES ECB encryption, PKCS7-padded, of the UTF-8 password under
that key: TripleDES with `K1 = K2 = K3` collapses to single DES. -/
theorem C6_encrypt_password_is_single_des (D : AUFE.DESImpl)
    (password key : String) (hk : key ≠ "") :
    AUFE.encrypt_password D password key =
      AUFE.encrypt_password_des_ref D password key := by
  unfold AUFE.encrypt_password AUFE.encrypt_password_des_ref
  have h : ∀ kb : List Nat, AUFE.tdesFromKey8 D kb = D.encryptBlock kb :=
    fun kb => funext fun b => by
      simp [AUFE.tdesFromKey8, AUFE.tdesBlock, D.decrypt_encrypt]
  simp only [h]

/-- Witness for C6: a concrete password and key evaluated through the
pipeline with the toy block cipher. -/
theorem C6_encrypt_password_is_single_des_witness :
    ("LT-1677" ≠ "") ∧
    AUFE.encrypt_password AUFE.idDES "secret" "LT-1677" =
      AUFE.encrypt_password_des_ref AUFE.idDES "secret" "LT-1677" :=
  ⟨by decide,
   C6_encrypt_password_is_single_des AUFE.idDES "secret" "LT-1677" (by decide)⟩
